import Mathlib

/-!
Verification of the EDA web client (upload / summary-refresh / rendering logic).

The definitions below are shallow embeddings of the JavaScript client code:
`escapeHtml`, `buildTable`, `handleFiles`, `uploadFile`,
`uploadFileAndRefresh`, `fetchSummary`, `fetchWithTimeoutAndRetries`,
`displayResults` and the chart-selection part of `displayCharts`.
Strings are Lean `String`s, JS objects are association lists, absent
fields are `Option`, and thrown exceptions are `Except` errors.
-/

namespace EdaClient

/-! ## escapeHtml (summary page script, and the robust upload script)

```js
function escapeHtml(str) {
  return String(str)
    .replace(/&/g, '&amp;')
    .replace(/</g, '&lt;')
    .replace(/>/g, '&gt;')
    .replace(/"/g, '&quot;')
    .replace(/'/g, '&#39;');
}
```
`String.prototype.replace` with a global single-character regex replaces
every occurrence of that character, in one left-to-right pass. -/

/-- One global single-character replacement pass (JS `str.replace(/c/g, rep)`). -/
def replaceAll (c : Char) (rep : List Char) : List Char → List Char
  | [] => []
  | x :: xs => (if x = c then rep else [x]) ++ replaceAll c rep xs

def ampRep : List Char := ['&', 'a', 'm', 'p', ';']
def ltRep : List Char := ['&', 'l', 't', ';']
def gtRep : List Char := ['&', 'g', 't', ';']
def quotRep : List Char := ['&', 'q', 'u', 'o', 't', ';']
def aposRep : List Char := ['&', '#', '3', '9', ';']

/-- The five sequential replacement passes of `escapeHtml`, ampersand first. -/
def escapeHtmlL (s : List Char) : List Char :=
  replaceAll '\'' aposRep
    (replaceAll '"' quotRep
      (replaceAll '>' gtRep
        (replaceAll '<' ltRep
          (replaceAll '&' ampRep s))))

def escapeHtml (s : String) : String := ⟨escapeHtmlL s.data⟩

/-- Per-character encoding; `escapeHtmlL` is proved equal to mapping this
over the input (the five passes touch disjoint characters and no pass
re-introduces a character replaced by a later pass). -/
def escChar (c : Char) : List Char :=
  if c = '&' then ampRep
  else if c = '<' then ltRep
  else if c = '>' then gtRep
  else if c = '"' then quotRep
  else if c = '\'' then aposRep
  else [c]

/-- `true` iff the list contains none of the four markup characters
`<`, `>`, `"`, `'`. -/
def noForbidden : List Char → Bool
  | [] => true
  | c :: cs => !(c == '<' || c == '>' || c == '"' || c == '\'') && noForbidden cs

/-- Does the list start with the tail of one of the five entities
(`amp;`, `lt;`, `gt;`, `quot;`, `#39;`)? -/
def startsEnt : List Char → Bool
  | 'a' :: 'm' :: 'p' :: ';' :: _ => true
  | 'l' :: 't' :: ';' :: _ => true
  | 'g' :: 't' :: ';' :: _ => true
  | 'q' :: 'u' :: 'o' :: 't' :: ';' :: _ => true
  | '#' :: '3' :: '9' :: ';' :: _ => true
  | _ => false

/-- `true` iff every ampersand in the list begins one of the five entities. -/
def goodAmp : List Char → Bool
  | [] => true
  | c :: cs => (!(c == '&') || startsEnt cs) && goodAmp cs

theorem replaceAll_append (c : Char) (rep : List Char) (a b : List Char) :
    replaceAll c rep (a ++ b) = replaceAll c rep a ++ replaceAll c rep b := by
  induction a with
  | nil => simp [replaceAll]
  | cons x xs ih => simp [replaceAll, ih]

theorem escapeHtmlL_singleton (x : Char) : escapeHtmlL [x] = escChar x := by
  by_cases h1 : x = '&'
  · subst h1; rfl
  · by_cases h2 : x = '<'
    · subst h2; rfl
    · by_cases h3 : x = '>'
      · subst h3; rfl
      · by_cases h4 : x = '"'
        · subst h4; rfl
        · by_cases h5 : x = '\''
          · subst h5; rfl
          · simp [escapeHtmlL, replaceAll, escChar, h1, h2, h3, h4, h5]

theorem escapeHtmlL_eq_flat (s : List Char) :
    escapeHtmlL s = (s.map escChar).flatten := by
  induction s with
  | nil => rfl
  | cons x xs ih =>
      have hsplit : escapeHtmlL (x :: xs) = escapeHtmlL [x] ++ escapeHtmlL xs := by
        show escapeHtmlL ([x] ++ xs) = _
        simp only [escapeHtmlL, replaceAll_append]
      rw [hsplit, escapeHtmlL_singleton, ih]
      rfl

theorem noForbidden_append (a b : List Char) :
    noForbidden (a ++ b) = (noForbidden a && noForbidden b) := by
  induction a with
  | nil => simp [noForbidden]
  | cons x xs ih => simp [noForbidden, ih, Bool.and_assoc]

theorem noForbidden_escapeHtmlL (s : List Char) :
    noForbidden (escapeHtmlL s) = true := by
  rw [escapeHtmlL_eq_flat]
  induction s with
  | nil => rfl
  | cons x xs ih =>
      simp only [List.map_cons, List.flatten_cons, noForbidden_append]
      rw [ih]
      by_cases h1 : x = '&'
      · subst h1; rfl
      · by_cases h2 : x = '<'
        · subst h2; rfl
        · by_cases h3 : x = '>'
          · subst h3; rfl
          · by_cases h4 : x = '"'
            · subst h4; rfl
            · by_cases h5 : x = '\''
              · subst h5; rfl
              · simp [escChar, noForbidden, h1, h2, h3, h4, h5]

theorem goodAmp_escChar_append (c : Char) (rest : List Char) (hrest : goodAmp rest = true) :
    goodAmp (escChar c ++ rest) = true := by
  by_cases h1 : c = '&'
  · subst h1; simpa [escChar, ampRep, goodAmp, startsEnt] using hrest
  · by_cases h2 : c = '<'
    · subst h2; simpa [escChar, ltRep, goodAmp, startsEnt] using hrest
    · by_cases h3 : c = '>'
      · subst h3; simpa [escChar, gtRep, goodAmp, startsEnt] using hrest
      · by_cases h4 : c = '"'
        · subst h4; simpa [escChar, quotRep, goodAmp, startsEnt] using hrest
        · by_cases h5 : c = '\''
          · subst h5; simpa [escChar, aposRep, goodAmp, startsEnt] using hrest
          · have hne : (c == '&') = false := by
              simp [h1]
            simp [escChar, h1, h2, h3, h4, h5, goodAmp, hne, hrest]

theorem goodAmp_escapeHtmlL (s : List Char) : goodAmp (escapeHtmlL s) = true := by
  rw [escapeHtmlL_eq_flat]
  induction s with
  | nil => rfl
  | cons x xs ih =>
      have : (List.map escChar (x :: xs)).flatten = escChar x ++ (List.map escChar xs).flatten := by
        simp
      rw [this]
      exact goodAmp_escChar_append x _ ih

/-! ## Data model

`DatasetSummary` mirrors the JSON summary object received from the backend.
A field that may be absent from the JSON object is an `Option`; the
per-column maps are association lists (JS object property lookup is
`List.lookup`, which returns `none` for a missing key, i.e. `undefined`). -/

/-- A JavaScript scalar value as it can appear in `sample_data` rows. -/
inductive JsVal where
  | vnull
  | vundef
  | vnan
  | vnum (n : Int)
  | vstr (s : String)
  | vbool (b : Bool)
deriving DecidableEq, Repr

/-- JS `String(val)` / template-literal interpolation of a scalar. -/
def jsString : JsVal → String
  | .vnull => "null"
  | .vundef => "undefined"
  | .vnan => "NaN"
  | .vnum n => toString n
  | .vstr s => s
  | .vbool b => if b then "true" else "false"

structure FileInfo where
  filename : String
  size_readable : String
deriving DecidableEq, Repr

structure DatasetSummary where
  shape : Option (Nat × Nat) := none
  columns : Option (List String) := none
  data_types : Option (List (String × String)) := none
  missing_values : Option (List (String × Nat)) := none
  unique_counts : Option (List (String × Nat)) := none
  memory_usage : Option String := none
  file_info : Option FileInfo := none
  sample_data : Option (List (List (String × JsVal))) := none
deriving DecidableEq, Repr

/-! ## buildTable (summary page script)

```js
function buildTable(summary) {
  const cols = summary.columns || [];
  const rows = cols.map(col => {
    const dtype = summary.data_types ? (summary.data_types[col] || '') : '';
    const missing = summary.missing_values ? (summary.missing_values[col] || 0) : 0;
    const unique = summary.unique_counts ? (summary.unique_counts[col] || 0) : 0;
    return [col, String(dtype), String(missing), String(unique)];
  });
  ...
  const tbody = document.querySelector('#columns-table tbody');
  tbody.innerHTML = '';
  rows.forEach(r => { const tr = ...; tbody.appendChild(tr); });
}
```
The DOM fallback path is modelled as a function from the old `tbody`
contents to the new contents: `innerHTML = ''` clears, then one `<tr>` is
appended per row, with each cell passed through `escapeHtml`. -/

def buildTableRows (summary : DatasetSummary) : List (List String) :=
  (summary.columns.getD []).map fun col =>
    let dtype := match summary.data_types with
      | some m => (m.lookup col).getD ""
      | none => ""
    let missing := match summary.missing_values with
      | some m => (m.lookup col).getD 0
      | none => 0
    let unique := match summary.unique_counts with
      | some m => (m.lookup col).getD 0
      | none => 0
    [col, dtype, toString missing, toString unique]

def renderRowCells (r : List String) : List String := r.map escapeHtml

def buildTable (summary : DatasetSummary) (_tbody : List (List String)) :
    List (List String) :=
  let rows := buildTableRows summary
  let cleared : List (List String) := []
  rows.foldl (fun acc r => acc ++ [renderRowCells r]) cleared

/-! ## handleFiles (dropzone client-side validation)

```js
function handleFiles(files) {
  if (files.length === 0) return;
  const file = files[0];
  if (!file.name.match(/\.(csv|xlsx)$/i)) {
    showError("Please upload a .csv or .xlsx file.");
    return;
  }
  if (file.size > 10 * 1024 * 1024) {
    showError("File size must be under 10MB.");
    return;
  }
  uploadFile(file);
}
```
and the summary page upload-button click handler:
```js
uploadBtn.addEventListener('click', async () => {
  const f = fileInput.files && fileInput.files[0];
  if (!f) { ... 'Please select a file' ...; return; }
  uploadBtn.disabled = true;
  const newSummary = await uploadFileAndRefresh(f);
  ...
});
```
`uploadFile` / `uploadFileAndRefresh` each issue one `fetch` of `/upload`. -/

structure JsFile where
  name : String
  size : Nat
deriving DecidableEq, Repr

/-- The regex test `file.name.match(/\.(csv|xlsx)$/i)`: the name ends,
case-insensitively, in `.csv` or `.xlsx` (written over the character
list so that it evaluates by kernel reduction). -/
def extOk (name : String) : Bool :=
  List.isSuffixOf ".csv".data (name.data.map Char.toLower)
    || List.isSuffixOf ".xlsx".data (name.data.map Char.toLower)

inductive ClientAction where
  | noAction
  | validationMsg (msg : String)
  | uploadRequest (f : JsFile)
deriving DecidableEq, Repr

def maxUploadBytes : Nat := 10 * 1024 * 1024

def handleFiles (files : List JsFile) : ClientAction :=
  match files with
  | [] => .noAction
  | file :: _ =>
    if !extOk file.name then .validationMsg "Please upload a .csv or .xlsx file."
    else if file.size > maxUploadBytes then .validationMsg "File size must be under 10MB."
    else .uploadRequest file

/-- Number of `/upload` network requests the action issues. -/
def uploadRequests : ClientAction → Nat
  | .uploadRequest _ => 1
  | _ => 0

def uploadBtnClick (files : List JsFile) : ClientAction :=
  match files with
  | [] => .validationMsg "Please select a file"
  | file :: _ => .uploadRequest file

/-! ## displayResults (robust upload page)

```js
function displayResults(summary) {
  ... // top cards, inside try/catch (exceptions swallowed)
  document.getElementById('summary-info').innerHTML = `
    <p><strong>Rows:</strong> ${summary.shape[0]} | <strong>Columns:</strong> ${summary.shape[1]}</p>
    <p><strong>Memory:</strong> ${summary.memory_usage}</p>`;
  const cols = summary.columns;
  cols.forEach(col => {
    colHtml += `<tr><td>${col}</td><td><code>${summary.data_types[col]}</code></td>
      <td>...${summary.missing_values[col]}</td><td>${summary.unique_counts[col]}</td></tr>`;
  });
  ...
  summary.sample_data.forEach(row => {
    cols.forEach(col => {
      const val = row[col];
      const isMissing = val === null || val === undefined || (typeof val === 'number' && isNaN(val));
      sampleHtml += `<td>${isMissing ? '<em>null</em>' : escapeHtml(String(val))}</td>`;
    });
  });
}
```
Indexing into an absent object (`summary.data_types[col]` with
`data_types` undefined, `summary.shape[0]` with `shape` undefined,
`summary.sample_data.forEach` with `sample_data` undefined) throws a
TypeError; a present map with a missing key interpolates as `undefined`. -/

def jsIndexS (m : Option (List (String × String))) (col : String) :
    Except String (Option String) :=
  match m with
  | none => .error "TypeError: Cannot read properties of undefined"
  | some l => .ok (l.lookup col)

def jsIndexN (m : Option (List (String × Nat))) (col : String) :
    Except String (Option Nat) :=
  match m with
  | none => .error "TypeError: Cannot read properties of undefined"
  | some l => .ok (l.lookup col)

def isMissingVal : JsVal → Bool
  | .vnull => true
  | .vundef => true
  | .vnan => true
  | _ => false

/-- One sample-data cell of the robust upload page (part of `displayResults`). -/
def displayResultsSampleCell (v : JsVal) : String :=
  if isMissingVal v then "<em>null</em>" else escapeHtml (jsString v)

/-- One sample-data cell of the Phase-1 `script.js` `displayResults`:
`${row[col] !== null ? row[col] : '<em>null</em>'}` — only `null` is
substituted, and the value is interpolated without escaping. -/
def phase1SampleCell (v : JsVal) : String :=
  if v ≠ JsVal.vnull then jsString v else "<em>null</em>"

structure RenderedResults where
  infoRows : String
  infoCols : String
  infoMemory : String
  columnRows : List (List String)
  sampleRows : List (List String)
deriving DecidableEq, Repr

def displayResults (summary : DatasetSummary) : Except String RenderedResults := do
  let (nrows, ncols) ← match summary.shape with
    | none => Except.error "TypeError: Cannot read properties of undefined (reading 0)"
    | some p => Except.ok p
  let cols ← match summary.columns with
    | none => Except.error "TypeError: Cannot read properties of undefined (reading forEach)"
    | some cs => Except.ok cs
  let columnRows ← cols.mapM fun col => do
    let dt ← jsIndexS summary.data_types col
    let mv ← jsIndexN summary.missing_values col
    let uq ← jsIndexN summary.unique_counts col
    Except.ok [col, dt.getD "undefined", (mv.map toString).getD "undefined",
      (uq.map toString).getD "undefined"]
  let sample ← match summary.sample_data with
    | none => Except.error "TypeError: Cannot read properties of undefined (reading forEach)"
    | some rows => Except.ok rows
  let sampleRows := sample.map fun row =>
    cols.map fun col => displayResultsSampleCell ((row.lookup col).getD .vundef)
  Except.ok
    { infoRows := toString nrows
      infoCols := toString ncols
      infoMemory := summary.memory_usage.getD "undefined"
      columnRows := columnRows
      sampleRows := sampleRows }

/-! ## Network boundary

An HTTP response is modelled after what the client observes: the `ok`
flag, the numeric status, the status text, the raw body text, and the
result of `JSON.parse` on that text (`none` when parsing throws).  A JSON
body is restricted to the upload payload shape the client reads
(`success`, `error`, `message`, `summary`). -/

structure UploadPayload where
  success : Bool := false
  error : Option String := none
  message : Option String := none
  summary : Option DatasetSummary := none
deriving DecidableEq, Repr

structure HttpResponse where
  ok : Bool
  status : Nat
  statusText : String := ""
  bodyText : String
  bodyJson : Option UploadPayload := none
deriving DecidableEq, Repr

/-- JS truthiness of an optional string field (`undefined` and `''` are falsy). -/
def truthyOpt : Option String → Option String
  | some s => if s = "" then none else some s
  | none => none

/-! ## uploadFileAndRefresh (summary page script)

```js
async function uploadFileAndRefresh(file) {
  const status = document.getElementById('upload-status');
  status.textContent = 'Uploading...';
  ...
  try {
    const res = await fetch('/upload', { method: 'POST', body: form });
    const text = await res.text();
    let payload;
    try { payload = text ? JSON.parse(text) : null; } catch(e) { payload = text; }
    if (!res.ok) {
      const msg = (payload && payload.error) ? payload.error : `Server error ${res.status}`;
      status.textContent = msg; status.classList.add('text-danger');
      return null;
    }
    if (payload && payload.success) {
      status.textContent = 'Analysis complete';
      status.classList.remove('text-danger');
      return payload.summary;
    }
    status.textContent = 'Unexpected server response';
    status.classList.add('text-danger');
    return null;
  } catch (err) {
    status.textContent = err.message || 'Upload failed';
    status.classList.add('text-danger');
    return null;
  }
}
```
Input: the network outcome (`.error msg` for a rejected `fetch`/text read,
`.ok r` for a settled response). -/

/-- `payload` after `try { payload = text ? JSON.parse(text) : null } catch { payload = text }`. -/
inductive JsPayload where
  | pnull
  | pobj (p : UploadPayload)
  | ptext (s : String)
deriving DecidableEq, Repr

def parsePayload (r : HttpResponse) : JsPayload :=
  if r.bodyText = "" then .pnull
  else match r.bodyJson with
    | some p => .pobj p
    | none => .ptext r.bodyText

structure UploadUiResult where
  returned : Option DatasetSummary
  statusMsg : String
  danger : Bool
deriving DecidableEq, Repr

def uploadFileAndRefresh (res : Except String HttpResponse) : UploadUiResult :=
  match res with
  | .error errMsg =>
      { returned := none
        statusMsg := if errMsg = "" then "Upload failed" else errMsg
        danger := true }
  | .ok r =>
      let payload := parsePayload r
      if !r.ok then
        let msg := match payload with
          | .pobj p =>
              match truthyOpt p.error with
              | some e => e
              | none => "Server error " ++ toString r.status
          | _ => "Server error " ++ toString r.status
        { returned := none, statusMsg := msg, danger := true }
      else
        match payload with
        | .pobj p =>
            if p.success then
              { returned := p.summary, statusMsg := "Analysis complete", danger := false }
            else
              { returned := none, statusMsg := "Unexpected server response", danger := true }
        | _ => { returned := none, statusMsg := "Unexpected server response", danger := true }

/-- The summary-page click handler keeps the rendered state only when
`uploadFileAndRefresh` returned a (truthy) summary: `if (newSummary) {...}`. -/
def uploadBtnFlow (prev : Option DatasetSummary) (res : Except String HttpResponse) :
    Option DatasetSummary :=
  match (uploadFileAndRefresh res).returned with
  | some s => some s
  | none => prev

/-! ## fetchSummary (summary page script, initial load)

```js
async function fetchSummary() {
  try {
    const res = await fetch('/summary-data');
    if (!res.ok) throw new Error(`Server returned ${res.status}`);
    const payload = await res.json();
    if (!payload.success) throw new Error(payload.error || 'No summary');
    return payload.summary;
  } catch (err) {
    console.error('Failed to fetch summary:', err);
    return null;
  }
}
```
The `json` component is `none` when `res.json()` throws (unparsable body). -/

inductive SummaryFetchOutcome where
  | netError (msg : String)
  | response (ok : Bool) (status : Nat) (json : Option UploadPayload)
deriving DecidableEq, Repr

structure FetchSummaryResult where
  returned : Option DatasetSummary
  logged : Bool
  uiMessage : Option String
deriving DecidableEq, Repr

def fetchSummary : SummaryFetchOutcome → FetchSummaryResult
  | .netError _ => { returned := none, logged := true, uiMessage := none }
  | .response ok _status json =>
      if !ok then { returned := none, logged := true, uiMessage := none }
      else
        match json with
        | none => { returned := none, logged := true, uiMessage := none }
        | some p =>
            if p.success then { returned := p.summary, logged := false, uiMessage := none }
            else { returned := none, logged := true, uiMessage := none }

/-- The successful case of the claim: HTTP ok and `success: true`. -/
def summaryFetchOkSuccess : SummaryFetchOutcome → Bool
  | .response true _ (some p) => p.success
  | _ => false

/-- The summary contained in the response payload, if any. -/
def containedSummary : SummaryFetchOutcome → Option DatasetSummary
  | .response _ _ (some p) => p.summary
  | _ => none

/-! ## fetchWithTimeoutAndRetries (robust upload page)

```js
async function fetchWithTimeoutAndRetries(url, options = {}, timeout = 30000, retries = 0) {
  let lastErr;
  for (let attempt = 0; attempt <= retries; attempt++) {
    const controller = new AbortController();
    const id = setTimeout(() => controller.abort(), timeout);
    ...
    try {
      const res = await fetch(url, reqOptions);
      clearTimeout(id);
      const text = await res.text();
      try {
        const json = text ? JSON.parse(text) : null;
        if (!res.ok) {
          throw new Error((json && (json.error || json.message)) || `Server error ${res.status} ${res.statusText}`);
        }
        return json;
      } catch (parseErr) {
        if (!res.ok) {
          const trimmed = (text || '').trim();
          throw new Error(trimmed ? trimmed : `Server error ${res.status} ${res.statusText}`);
        }
        return text;
      }
    } catch (err) {
      clearTimeout(id);
      lastErr = err;
      if ((err.name === 'AbortError' || (err.message && err.message.toLowerCase().includes('timeout'))) && attempt < retries) continue;
      if (attempt < retries) continue;
      throw err;
    }
  }
  throw lastErr || new Error('Unknown network error');
}
```
Note that the `throw new Error((json && (json.error || json.message)) || ...)`
inside the inner `try` is caught by that try's own `catch (parseErr)`,
which — the response being non-ok — rethrows the trimmed raw text (or the
generic server-error string) instead.  Each loop iteration is driven by
one element of `outcomes`: the observable result of that network attempt. -/

inductive AttemptOutcome where
  | abortTimeout
  | netError (msg : String)
  | response (r : HttpResponse)
deriving DecidableEq, Repr

inductive FetchBody where
  | jnull
  | jobj (p : UploadPayload)
  | jtext (s : String)
deriving DecidableEq, Repr

def serverErrStr (status : Nat) (statusText : String) : String :=
  "Server error " ++ toString status ++ " " ++ statusText

/-- `(text || '').trim()` on the ASCII whitespace the client can see
(written over the character list so that it evaluates by reduction). -/
def isSpaceChar (c : Char) : Bool :=
  c = ' ' || c = '\t' || c = '\n' || c = '\r'

def trimStr (s : String) : String :=
  ⟨((s.data.dropWhile isSpaceChar).reverse.dropWhile isSpaceChar).reverse⟩

/-- The message of the error built inside the inner `try`
(dead in every execution: it is swallowed by `catch (parseErr)`). -/
def innerErrMsg (p : UploadPayload) (status : Nat) (statusText : String) : String :=
  match truthyOpt p.error with
  | some e => e
  | none =>
      match truthyOpt p.message with
      | some m => m
      | none => serverErrStr status statusText

/-- Body handling of one settled response, inner `try`/`catch` included. -/
def processResponse (r : HttpResponse) : Except String FetchBody :=
  let inner : Except String FetchBody :=
    if r.bodyText = "" then
      if !r.ok then .error (serverErrStr r.status r.statusText) else .ok .jnull
    else
      match r.bodyJson with
      | none => .error "SyntaxError: Unexpected token in JSON"
      | some p =>
          if !r.ok then .error (innerErrMsg p r.status r.statusText)
          else .ok (.jobj p)
  match inner with
  | .ok v => .ok v
  | .error _ =>
      if !r.ok then
        .error (if trimStr r.bodyText = "" then serverErrStr r.status r.statusText
                else trimStr r.bodyText)
      else .ok (.jtext r.bodyText)

structure JsError where
  isAbortName : Bool
  msg : String
deriving DecidableEq, Repr

def attemptRun : AttemptOutcome → Except JsError FetchBody
  | .abortTimeout => .error { isAbortName := true, msg := "The operation was aborted" }
  | .netError m => .error { isAbortName := false, msg := m }
  | .response r =>
      match processResponse r with
      | .ok v => .ok v
      | .error m => .error { isAbortName := false, msg := m }

/-- Does the character list start with `timeout`? -/
def startsWithTimeout : List Char → Bool
  | 't' :: 'i' :: 'm' :: 'e' :: 'o' :: 'u' :: 't' :: _ => true
  | _ => false

/-- `includes('timeout')` over a character list. -/
def containsTimeoutL : List Char → Bool
  | [] => false
  | c :: cs => startsWithTimeout (c :: cs) || containsTimeoutL cs

/-- `err.name === 'AbortError' || (err.message && err.message.toLowerCase().includes('timeout'))`. -/
def timeoutLike (e : JsError) : Bool :=
  e.isAbortName || containsTimeoutL (e.msg.data.map Char.toLower)

instance : DecidableEq (Except String FetchBody) := fun a b =>
  match a, b with
  | .error x, .error y =>
      if h : x = y then .isTrue (by rw [h]) else .isFalse (by simp [h])
  | .error _, .ok _ => .isFalse (by simp)
  | .ok _, .error _ => .isFalse (by simp)
  | .ok x, .ok y =>
      if h : x = y then .isTrue (by rw [h]) else .isFalse (by simp [h])

structure FetchResult where
  attempts : Nat
  result : Except String FetchBody
deriving DecidableEq, Repr

/-- The retry loop; `remaining` is `retries - attempt` (how many retries are left). -/
def fwtrLoop (outcomes : List AttemptOutcome) : Nat → Nat → FetchResult
  | attempt, 0 =>
      match attemptRun (outcomes.getD attempt (.netError "Failed to fetch")) with
      | .ok v => { attempts := attempt + 1, result := .ok v }
      | .error e => { attempts := attempt + 1, result := .error e.msg }
  | attempt, remaining + 1 =>
      match attemptRun (outcomes.getD attempt (.netError "Failed to fetch")) with
      | .ok v => { attempts := attempt + 1, result := .ok v }
      | .error e =>
          if timeoutLike e then fwtrLoop outcomes (attempt + 1) remaining
          else fwtrLoop outcomes (attempt + 1) remaining

def fetchWithTimeoutAndRetries (_timeoutMs retries : Nat)
    (outcomes : List AttemptOutcome) : FetchResult :=
  fwtrLoop outcomes 0 retries

/-- Call-site constants: `fetchWithTimeoutAndRetries('/upload', {...}, 30000, 2)`. -/
def uploadTimeoutMs : Nat := 30000
def uploadRetryCount : Nat := 2
/-- Call-site constants: `fetchBlobWithTimeoutAndRetries('/report', {...}, 30000, 1)`. -/
def reportTimeoutMs : Nat := 30000
def reportRetryCount : Nat := 1

def uploadCall (outcomes : List AttemptOutcome) : FetchResult :=
  fetchWithTimeoutAndRetries uploadTimeoutMs uploadRetryCount outcomes

/-! ## uploadFile (robust upload page)

```js
function uploadFile(file) {
  hideError();
  loading.classList.remove('d-none');
  results.classList.add('d-none');
  ...
  fetchWithTimeoutAndRetries('/upload', { method: 'POST', body: formData }, 30000, 2)
    .then(data => {
      if (data && data.success) {
        currentSummary = data.summary;
        currentFilename = file.name;
        displayResults(data.summary);
        results.classList.remove('d-none');
      } else if (typeof data === 'string') {
        try { const parsed = JSON.parse(data); ... }
        catch (e) { showError(data || 'Unexpected server response'); }
      } else {
        showError((data && data.error) || 'Unexpected server response');
      }
    })
    .catch(err => {
      if (!navigator.onLine) showError('No network connection. Please check your internet and try again.');
      else showError(err.message || 'Network error. Please try again.');
    });
}
```
`currentSummary` is assigned before `displayResults` runs; if rendering
throws, the promise chain's `.catch` shows the error, with the assignment
already done.  Re-parsing the string `data` fails again deterministically
(it is returned as text only when `JSON.parse` already failed on it). -/

structure UploadPageState where
  currentSummary : Option DatasetSummary := none
  currentFilename : Option String := none
  errorShown : Option String := none
  resultsVisible : Bool := false
deriving DecidableEq, Repr

def offlineMsg : String := "No network connection. Please check your internet and try again."
def netErrFallback : String := "Network error. Please try again."
def unexpectedMsg : String := "Unexpected server response"

/-- `displayResults(data.summary)` — `data.summary` may be `undefined`. -/
def tryDisplay : Option DatasetSummary → Except String RenderedResults
  | none => .error "TypeError: Cannot read properties of undefined (reading shape)"
  | some s => displayResults s

/-- The `.catch` handler's message. -/
def catchMsg (onLine : Bool) (m : String) : String :=
  if !onLine then offlineMsg
  else if m = "" then netErrFallback else m

def uploadFile (st : UploadPageState) (file : JsFile) (onLine : Bool)
    (outcomes : List AttemptOutcome) : UploadPageState :=
  let st0 : UploadPageState :=
    { st with errorShown := none, resultsVisible := false }
  match (uploadCall outcomes).result with
  | .ok b =>
      match b with
      | .jobj p =>
          if p.success then
            let st1 := { st0 with currentSummary := p.summary,
                                  currentFilename := some file.name }
            match tryDisplay p.summary with
            | .ok _ => { st1 with resultsVisible := true }
            | .error m => { st1 with errorShown := some (catchMsg onLine m) }
          else
            { st0 with errorShown := some ((truthyOpt p.error).getD unexpectedMsg) }
      | .jtext s =>
          { st0 with errorShown := some (if s = "" then unexpectedMsg else s) }
      | .jnull => { st0 with errorShown := some unexpectedMsg }
  | .error m => { st0 with errorShown := some (catchMsg onLine m) }

/-- A fetch result that is a failure in the sense enumerated by the spec:
non-2xx (surfaced as `.error`), timeout/network error (also `.error`),
`{success:false}`, or a malformed payload (no parse / no `success`). -/
def isUploadFailure : Except String FetchBody → Bool
  | .error _ => true
  | .ok (.jobj p) => !p.success
  | .ok .jnull => true
  | .ok (.jtext _) => true

/-! ## displayCharts chart selection (summary page with charts)

```js
const charts = payload.charts || {};
let count = 0;
const usedKeys = new Set();
// 1) correlation heatmap first (if present)
if (charts.correlation_heatmap && count < MAX_CHARTS) { ...; count += 1; usedKeys.add('correlation_heatmap'); }
// 2) one scatter plot (first key starting with 'scatter__')
if (count < MAX_CHARTS) {
  const scatterKey = Object.keys(charts).find(k => k.startsWith('scatter__'));
  if (scatterKey) { ...; count += 1; usedKeys.add(scatterKey); }
}
// 3) one numeric chart (histogram preferred, else boxplot)
if (count < MAX_CHARTS) {
  const candidates = Object.keys(charts).filter(k => !k.startsWith('scatter__') && k !== 'correlation_heatmap');
  const numericEntry = candidates.map(k => [k, charts[k]]).find(([_, v]) => v && typeof v === 'object' && (v.histogram || v.boxplot));
  if (numericEntry) { const type = v.histogram ? 'histogram' : 'boxplot'; ...; count += 1; usedKeys.add(key); }
}
// 4) one categorical chart (barh preferred, else pie)    [same candidates, (v.barh || v.pie)]
// Fallback: fill remaining slots with any charts left until 2x2 is full
if (count < MAX_CHARTS) {
  const keys = Object.keys(charts).filter(k => !usedKeys.has(k));
  for (const key of keys) {
    if (count >= MAX_CHARTS) break;
    ... if string -> img = value; if object -> first of ['histogram','boxplot','barh','pie']; if (img) count += 1;
  }
}
```
A chart value is either a base64 string or an object of per-type images.
A selection element is `(key, chosen type)`; `none` means the value was
used directly (string-valued or interpolated). -/

inductive ChartValue where
  | str (s : String)
  | obj (histogram boxplot barh pie : Option String)
deriving DecidableEq, Repr

/-- JS truthiness of a whole chart value (an object is always truthy). -/
def truthyVal : ChartValue → Bool
  | .str s => s != ""
  | .obj _ _ _ _ => true

abbrev ChartPick := String × Option String

def heatPick (charts : List (String × ChartValue)) : Option ChartPick :=
  match charts.lookup "correlation_heatmap" with
  | some v => if truthyVal v then some ("correlation_heatmap", none) else none
  | none => none

def scatterPick (charts : List (String × ChartValue)) : Option ChartPick :=
  (charts.find? fun kv => kv.1.startsWith "scatter__").map fun kv => (kv.1, none)

def chartCandidates (charts : List (String × ChartValue)) : List (String × ChartValue) :=
  charts.filter fun kv => !kv.1.startsWith "scatter__" && kv.1 != "correlation_heatmap"

def numericPick (charts : List (String × ChartValue)) : Option ChartPick :=
  ((chartCandidates charts).find? fun kv =>
      match kv.2 with
      | .obj h b _ _ => (truthyOpt h).isSome || (truthyOpt b).isSome
      | _ => false).map fun kv =>
    match kv.2 with
    | .obj h _ _ _ => (kv.1, if (truthyOpt h).isSome then some "histogram" else some "boxplot")
    | _ => (kv.1, none)

def catPick (charts : List (String × ChartValue)) : Option ChartPick :=
  ((chartCandidates charts).find? fun kv =>
      match kv.2 with
      | .obj _ _ bh p => (truthyOpt bh).isSome || (truthyOpt p).isSome
      | _ => false).map fun kv =>
    match kv.2 with
    | .obj _ _ bh _ => (kv.1, if (truthyOpt bh).isSome then some "barh" else some "pie")
    | _ => (kv.1, none)

/-- The fallback-loop usability of a value: a nonempty string, or the first
truthy type among histogram, boxplot, barh, pie (`if (img)` skips the rest). -/
def fallbackImg : ChartValue → Option (Option String)
  | .str s => if s = "" then none else some none
  | .obj h b bh p =>
      if (truthyOpt h).isSome then some (some "histogram")
      else if (truthyOpt b).isSome then some (some "boxplot")
      else if (truthyOpt bh).isSome then some (some "barh")
      else if (truthyOpt p).isSome then some (some "pie")
      else none

/-- The fallback `for`-loop with its `count`/`break` bookkeeping. -/
def fillLoop (count : Nat) : List (String × ChartValue) → List ChartPick
  | [] => []
  | kv :: rest =>
      if 4 ≤ count then []
      else
        match fallbackImg kv.2 with
        | some t => (kv.1, t) :: fillLoop (count + 1) rest
        | none => fillLoop count rest

/-- The chart selection of `displayCharts`, translated step by step (the
`count < MAX_CHARTS` guards included). -/
def selectCharts (charts : List (String × ChartValue)) : List ChartPick :=
  let l1 := (heatPick charts).toList
  let c1 := l1.length
  let l2 := if c1 < 4 then (scatterPick charts).toList else []
  let c2 := c1 + l2.length
  let l3 := if c2 < 4 then (numericPick charts).toList else []
  let c3 := c2 + l3.length
  let l4 := if c3 < 4 then (catPick charts).toList else []
  let prio := l1 ++ l2 ++ l3 ++ l4
  let used := prio.map Prod.fst
  prio ++ fillLoop prio.length (charts.filter fun kv => !(used.contains kv.1))

/-- The selection described by the claim's words: the priority list —
heatmap, one scatter (first encountered), one numeric chart (histogram
preferred, else boxplot), one categorical chart (barh preferred, else
pie) — capped at 4, then the remaining slots filled with the other
returned charts, in the order received. -/
def selectChartsClaim (charts : List (String × ChartValue)) : List ChartPick :=
  let prio := ((heatPick charts).toList ++ (scatterPick charts).toList ++
      (numericPick charts).toList ++ (catPick charts).toList).take 4
  let used := prio.map Prod.fst
  let fillers := (charts.filter fun kv => !(used.contains kv.1)).filterMap
      fun kv => (fallbackImg kv.2).map fun t => (kv.1, t)
  prio ++ fillers.take (4 - prio.length)

/-! ## Helper lemmas -/

theorem foldl_push_eq_map {α β : Type} (f : α → β) (l : List α) (acc : List β) :
    l.foldl (fun a r => a ++ [f r]) acc = acc ++ l.map f := by
  induction l generalizing acc with
  | nil => simp
  | cons x xs ih => simp [ih]

theorem buildTable_eq_map (s : DatasetSummary) (t : List (List String)) :
    buildTable s t = (buildTableRows s).map renderRowCells := by
  unfold buildTable
  rw [foldl_push_eq_map]
  simp

theorem buildTableRows_names (s : DatasetSummary) :
    ((buildTableRows s).map fun r => r.headD "") = s.columns.getD [] := by
  unfold buildTableRows
  rw [List.map_map]
  exact List.map_id' _

/-! ## Claim theorems -/

/-- Claim C9 (confirmed): for every input string, `escapeHtml` returns a
string containing no occurrence of `<`, `>`, `"` or `'` at all (hence no
unescaped one), and every `&` in the output starts one of the entities
`&amp;`, `&lt;`, `&gt;`, `&quot;`, `&#39;` (the ampersand pass runs
first, so ampersands introduced by later passes are themselves entity
heads) — a table cell built from `escapeHtml` output cannot introduce
HTML markup taken from dataset content. -/
theorem claim_C9_escapeHtml_safe (s : String) :
    noForbidden (escapeHtml s).data = true ∧ goodAmp (escapeHtml s).data = true :=
  ⟨noForbidden_escapeHtmlL s.data, goodAmp_escapeHtmlL s.data⟩

/-- Claim C8 (confirmed): rendering is idempotent — `buildTable` rebuilds
the table body from scratch (`tbody.innerHTML = ''` before appending, or
`clear()` before `rows.add` on the widget path), so rendering twice with
the same summary equals rendering once, the result is independent of
whatever rows were previously in the body (full replace, never append),
and the rendered body has exactly one row per declared column. -/
theorem claim_C8_render_idempotent (s : DatasetSummary) (t t' : List (List String)) :
    buildTable s (buildTable s t) = buildTable s t
    ∧ buildTable s t = buildTable s t'
    ∧ (buildTable s t).length = (s.columns.getD []).length := by
  refine ⟨rfl, rfl, ?_⟩
  rw [buildTable_eq_map]
  unfold buildTableRows
  simp

/-- Claim C3 (corrected), counterexample: the claim says that for every
valid `DatasetSummary`, including one whose per-column maps are absent
entirely, rendering completes without throwing.  `displayResults` (one of
the two cited renderers) evaluates `summary.data_types[col]` without a
guard: on a summary with `columns` present and `data_types` absent it
throws a TypeError instead of completing. -/
theorem claim_C3_counterexample :
    displayResults
        { shape := some (1, 1), columns := some ["a"], sample_data := some [] }
      = Except.error "TypeError: Cannot read properties of undefined" := rfl

/-- Claim C3 (corrected), amended: `buildTable` — the summary-page
renderer — satisfies the claim: it is total (never throws), each absent
per-column map yields the unknown/zero defaults `""`/`"0"`/`"0"` for
every column, and every name in `columns` appears exactly once, in
order, as the first cell of a row.  (`displayResults`, by contrast,
throws when a per-column map is absent — see the counterexample — and
renders a present map's missing key as `"undefined"`.) -/
theorem claim_C3_buildTable_safe (s : DatasetSummary) :
    ((buildTableRows s).map fun r => r.headD "") = s.columns.getD []
    ∧ (∀ cols : List String,
        buildTableRows { columns := some cols } = cols.map fun c => [c, "", "0", "0"])
    ∧ (∀ c : String,
        ((buildTableRows s).map fun r => r.headD "").count c = (s.columns.getD []).count c) := by
  refine ⟨buildTableRows_names s, ?_, fun _ => by rw [buildTableRows_names s]⟩
  intro cols
  unfold buildTableRows
  simp
  exact fun _ _ => rfl

/-- Claim C2 (corrected), counterexample: the claim says every file the
user submits for upload is validated client-side (extension and size)
before any request.  The summary-page upload button's click handler
passes the selected file straight to `uploadFileAndRefresh` with no
validation: a 20 MB `.txt` file issues an `/upload` request. -/
theorem claim_C2_counterexample :
    extOk "x.txt" = false
    ∧ (20971520 : Nat) > maxUploadBytes
    ∧ uploadBtnClick [{ name := "x.txt", size := 20971520 }]
        = ClientAction.uploadRequest { name := "x.txt", size := 20971520 }
    ∧ uploadRequests (uploadBtnClick [{ name := "x.txt", size := 20971520 }]) = 1 :=
  ⟨by decide, by norm_num [maxUploadBytes], rfl, rfl⟩

/-- Claim C2 (corrected), amended: on the dropzone path (`handleFiles`),
a file whose name does not end in `.csv`/`.xlsx` (case-insensitive) or
whose size exceeds 10 MB is rejected with a user-visible validation
message and no request is issued, and a valid file triggers exactly one
upload request; the summary-page upload button performs no such
validation and sends any selected file. -/
theorem claim_C2_dropzone_validation (f : JsFile) (rest : List JsFile) :
    (extOk f.name = false →
      handleFiles (f :: rest) = .validationMsg "Please upload a .csv or .xlsx file."
      ∧ uploadRequests (handleFiles (f :: rest)) = 0)
    ∧ (extOk f.name = true → f.size > maxUploadBytes →
      handleFiles (f :: rest) = .validationMsg "File size must be under 10MB."
      ∧ uploadRequests (handleFiles (f :: rest)) = 0)
    ∧ (extOk f.name = true → f.size ≤ maxUploadBytes →
      handleFiles (f :: rest) = .uploadRequest f
      ∧ uploadRequests (handleFiles (f :: rest)) = 1)
    ∧ handleFiles [] = .noAction := by
  refine ⟨?_, ?_, ?_, rfl⟩
  · intro hext
    simp [handleFiles, hext, uploadRequests]
  · intro hext hsize
    simp [handleFiles, hext, hsize, uploadRequests]
  · intro hext hsize
    simp [handleFiles, hext, Nat.not_lt.mpr hsize, uploadRequests]

theorem claim_C2_dropzone_validation_witness :
    (handleFiles [{ name := "x.txt", size := 5 }]
        = .validationMsg "Please upload a .csv or .xlsx file.")
    ∧ (handleFiles [{ name := "a.csv", size := 11534336 }]
        = .validationMsg "File size must be under 10MB.")
    ∧ uploadRequests (handleFiles [{ name := "b.csv", size := 9437184 }]) = 1 :=
  ⟨((claim_C2_dropzone_validation { name := "x.txt", size := 5 } []).1 (by decide)).1,
   ((claim_C2_dropzone_validation { name := "a.csv", size := 11534336 } []).2.1 (by decide)
      (by decide)).1,
   ((claim_C2_dropzone_validation { name := "b.csv", size := 9437184 } []).2.2.1 (by decide)
      (by decide)).2⟩

/-- Claim C10 (corrected), counterexample: the claim says every sample
cell whose value is null, undefined, or NaN renders as the emphasised
`null` placeholder and every other value as its escaped string.  The
Phase-1 `script.js` sample loop tests only `row[col] !== null`: an
undefined value renders as the raw text `undefined`, a NaN as `NaN`, and
string values are interpolated without any escaping. -/
theorem claim_C10_counterexample :
    phase1SampleCell JsVal.vundef = "undefined"
    ∧ phase1SampleCell JsVal.vnan = "NaN"
    ∧ phase1SampleCell (JsVal.vstr "<img src=x>") = "<img src=x>" :=
  ⟨rfl, rfl, rfl⟩

/-- Claim C10 (corrected), amended: in the robust upload page's
`displayResults` sample loop, every null/undefined/NaN value renders as
the `<em>null</em>` placeholder and every other value as its escaped
string form, so every cell is either the placeholder or free of the
markup characters; the Phase-1 `script.js` loop substitutes only `null`
and does not escape. -/
theorem claim_C10_sample_cells (v : JsVal) :
    (isMissingVal v = true → displayResultsSampleCell v = "<em>null</em>")
    ∧ (isMissingVal v = false → displayResultsSampleCell v = escapeHtml (jsString v))
    ∧ (displayResultsSampleCell v = "<em>null</em>"
        ∨ noForbidden (displayResultsSampleCell v).data = true) := by
  refine ⟨fun h => by simp [displayResultsSampleCell, h],
          fun h => by simp [displayResultsSampleCell, h], ?_⟩
  cases hm : isMissingVal v with
  | true => exact Or.inl (by simp [displayResultsSampleCell, hm])
  | false =>
      refine Or.inr ?_
      have hcell : displayResultsSampleCell v = escapeHtml (jsString v) := by
        simp [displayResultsSampleCell, hm]
      rw [hcell]
      exact noForbidden_escapeHtmlL (jsString v).data

theorem claim_C10_sample_cells_witness :
    displayResultsSampleCell JsVal.vnan = "<em>null</em>"
    ∧ displayResultsSampleCell (JsVal.vstr "<b>") = escapeHtml "<b>" :=
  ⟨(claim_C10_sample_cells JsVal.vnan).1 rfl,
   (claim_C10_sample_cells (JsVal.vstr "<b>")).2.1 rfl⟩

/-! ## Network-claim helpers -/

theorem truthyOpt_ne_empty {o : Option String} {e : String}
    (h : truthyOpt o = some e) : e ≠ "" := by
  cases o with
  | none => simp [truthyOpt] at h
  | some s =>
      by_cases hs : s = ""
      · simp [truthyOpt, hs] at h
      · simp [truthyOpt, hs] at h
        exact h ▸ hs

theorem server_error_ne_empty (x : String) : "Server error " ++ x ≠ "" := by
  intro h
  have hd : ("Server error " ++ x).data = "".data := congrArg String.data h
  rw [String.data_append] at hd
  simp at hd

/-- Whether the upload response, as the client decodes it, is a success
(`res.ok` and a parsed payload with `success` truthy). -/
def responseSucceeds (res : Except String HttpResponse) : Bool :=
  match res with
  | .error _ => false
  | .ok r =>
      r.ok && (match parsePayload r with
        | .pobj p => p.success
        | _ => false)

def diskFullBody : String := "\x7b\"error\":\"disk full\"\x7d"

def diskFullResp : HttpResponse :=
  { ok := false, status := 500, statusText := "Internal Server Error",
    bodyText := diskFullBody,
    bodyJson := some { success := false, error := some "disk full" } }

/-- The summary of the spec's upload-success example. -/
def sampleSummary : DatasetSummary :=
  { shape := some (100, 3), columns := some ["a", "b", "c"],
    data_types := some [("a", "int64")], missing_values := some [],
    unique_counts := some [] }

/-! ## Claim theorems (network) -/

/-- Claim C4 (confirmed): for every failing upload — network error,
non-2xx response, `{success:false}`, or a malformed payload (no parse /
no `success`) — the summary-page flow returns `null` with a nonempty
danger-styled status message and the held summary is unchanged, and the
robust upload page keeps `currentSummary` untouched and shows an error;
in particular HTTP 500 with body `{"error":"disk full"}` displays
`disk full` in the status region and does not modify the held summary. -/
theorem uploadFail_returned (res : Except String HttpResponse)
    (h : responseSucceeds res = false) :
    (uploadFileAndRefresh res).returned = none := by
  match res with
  | .error m => rfl
  | .ok r =>
      simp only [responseSucceeds] at h
      cases hok : r.ok with
      | false => cases hp : parsePayload r <;> simp [uploadFileAndRefresh, hok, hp]
      | true =>
          rw [hok, Bool.true_and] at h
          cases hp : parsePayload r with
          | pobj p =>
              rw [hp] at h
              have hs : p.success = false := by simpa using h
              simp [uploadFileAndRefresh, hok, hp, hs]
          | pnull => simp [uploadFileAndRefresh, hok, hp]
          | ptext s => simp [uploadFileAndRefresh, hok, hp]

theorem uploadFail_danger (res : Except String HttpResponse)
    (h : responseSucceeds res = false) :
    (uploadFileAndRefresh res).danger = true := by
  match res with
  | .error m => rfl
  | .ok r =>
      simp only [responseSucceeds] at h
      cases hok : r.ok with
      | false => cases hp : parsePayload r <;> simp [uploadFileAndRefresh, hok, hp]
      | true =>
          rw [hok, Bool.true_and] at h
          cases hp : parsePayload r with
          | pobj p =>
              rw [hp] at h
              have hs : p.success = false := by simpa using h
              simp [uploadFileAndRefresh, hok, hp, hs]
          | pnull => simp [uploadFileAndRefresh, hok, hp]
          | ptext s => simp [uploadFileAndRefresh, hok, hp]

theorem uploadFail_statusMsg (res : Except String HttpResponse)
    (h : responseSucceeds res = false) :
    (uploadFileAndRefresh res).statusMsg ≠ "" := by
  match res with
  | .error m =>
      show (if m = "" then "Upload failed" else m) ≠ ""
      by_cases hm : m = ""
      · simp [hm]
      · rw [if_neg hm]
        exact hm
  | .ok r =>
      simp only [responseSucceeds] at h
      cases hok : r.ok with
      | false =>
          cases hp : parsePayload r with
          | pobj p =>
              cases he : truthyOpt p.error with
              | some e =>
                  simpa [uploadFileAndRefresh, hok, hp, he] using truthyOpt_ne_empty he
              | none =>
                  simpa [uploadFileAndRefresh, hok, hp, he] using
                    server_error_ne_empty (toString r.status)
          | pnull =>
              simpa [uploadFileAndRefresh, hok, hp] using
                server_error_ne_empty (toString r.status)
          | ptext s =>
              simpa [uploadFileAndRefresh, hok, hp] using
                server_error_ne_empty (toString r.status)
      | true =>
          rw [hok, Bool.true_and] at h
          have hmsg : (uploadFileAndRefresh (.ok r)).statusMsg = "Unexpected server response" := by
            cases hp : parsePayload r with
            | pobj p =>
                rw [hp] at h
                have hs : p.success = false := by simpa using h
                simp [uploadFileAndRefresh, hok, hp, hs]
            | pnull => simp [uploadFileAndRefresh, hok, hp]
            | ptext s => simp [uploadFileAndRefresh, hok, hp]
          rw [hmsg]
          decide

theorem uploadBtnFlow_of_returned_none (prev : Option DatasetSummary)
    (res : Except String HttpResponse)
    (h : (uploadFileAndRefresh res).returned = none) :
    uploadBtnFlow prev res = prev := by
  unfold uploadBtnFlow
  rw [h]

theorem claim_C4_failure_preserves_state :
    (∀ (prev : Option DatasetSummary) (res : Except String HttpResponse),
      responseSucceeds res = false →
        (uploadFileAndRefresh res).returned = none
        ∧ (uploadFileAndRefresh res).statusMsg ≠ ""
        ∧ (uploadFileAndRefresh res).danger = true
        ∧ uploadBtnFlow prev res = prev)
    ∧ (∀ (st : UploadPageState) (file : JsFile) (onLine : Bool)
        (outcomes : List AttemptOutcome),
        isUploadFailure (uploadCall outcomes).result = true →
          (uploadFile st file onLine outcomes).currentSummary = st.currentSummary
          ∧ (uploadFile st file onLine outcomes).errorShown ≠ none)
    ∧ uploadFileAndRefresh (.ok diskFullResp)
        = { returned := none, statusMsg := "disk full", danger := true }
    ∧ (∀ prev, uploadBtnFlow prev (.ok diskFullResp) = prev) := by
  refine ⟨?_, ?_, rfl, fun prev => rfl⟩
  · intro prev res h
    exact ⟨uploadFail_returned res h, uploadFail_statusMsg res h,
      uploadFail_danger res h,
      uploadBtnFlow_of_returned_none prev res (uploadFail_returned res h)⟩
  · intro st file onLine outcomes h
    cases hres : (uploadCall outcomes).result with
    | error m => exact ⟨by simp [uploadFile, hres], by simp [uploadFile, hres]⟩
    | ok b =>
        cases b with
        | jobj p =>
            rw [hres] at h
            have hs : p.success = false := by simpa [isUploadFailure] using h
            exact ⟨by simp [uploadFile, hres, hs], by simp [uploadFile, hres, hs]⟩
        | jnull => exact ⟨by simp [uploadFile, hres], by simp [uploadFile, hres]⟩
        | jtext s => exact ⟨by simp [uploadFile, hres], by simp [uploadFile, hres]⟩

theorem claim_C4_failure_preserves_state_witness :
    (uploadFileAndRefresh (Except.error "boom")).returned = none
    ∧ (uploadFile { currentSummary := some sampleSummary } { name := "a.csv", size := 3 }
          true [.netError "boom", .netError "boom", .netError "boom"]).currentSummary
        = some sampleSummary :=
  ⟨(claim_C4_failure_preserves_state.1 none (Except.error "boom") rfl).1,
   (claim_C4_failure_preserves_state.2.1
      { currentSummary := some sampleSummary } { name := "a.csv", size := 3 }
      true [.netError "boom", .netError "boom", .netError "boom"] rfl).1⟩

/-- Claim C6 (code_bug): the claim (and the code's own structure — the
`Error` built from `json.error || json.message` inside the inner `try`)
intends the server-supplied error field to have first priority, but that
throw is caught by the same try's `catch (parseErr)`, which — the
response being non-ok — rethrows the trimmed raw body text instead.  At
HTTP 500 with body `{"error":"disk full"}` the surfaced message is the
raw body, not `disk full`, although the intended (dead) message is
exactly `disk full`. -/
theorem claim_C6_message_priority_divergence :
    (fetchWithTimeoutAndRetries 30000 0 [.response diskFullResp]).result
      = .error diskFullBody
    ∧ innerErrMsg { success := false, error := some "disk full" } 500 "Internal Server Error"
      = "disk full"
    ∧ diskFullBody ≠ "disk full" := by
  refine ⟨rfl, rfl, ?_⟩
  decide

/-- Claim C7 (confirmed): the initial-load `fetchSummary` returns the
payload's summary exactly when the response is HTTP-ok with
`success:true`; in every other case (network error, non-ok status,
unparsable body, missing/false `success`) it returns `null` with the
failure only logged, and it never writes a user-visible message. -/
theorem claim_C7_initial_load (o : SummaryFetchOutcome) :
    (summaryFetchOkSuccess o = true →
      fetchSummary o = { returned := containedSummary o, logged := false, uiMessage := none })
    ∧ (summaryFetchOkSuccess o = false →
      (fetchSummary o).returned = none ∧ (fetchSummary o).logged = true)
    ∧ (fetchSummary o).uiMessage = none := by
  cases o with
  | netError m =>
      exact ⟨fun h => by simp [summaryFetchOkSuccess] at h, fun _ => ⟨rfl, rfl⟩, rfl⟩
  | response ok status json =>
      cases ok with
      | false =>
          exact ⟨fun h => by simp [summaryFetchOkSuccess] at h, fun _ => ⟨rfl, rfl⟩, rfl⟩
      | true =>
          cases json with
          | none =>
              exact ⟨fun h => by simp [summaryFetchOkSuccess] at h, fun _ => ⟨rfl, rfl⟩, rfl⟩
          | some p =>
              cases hs : p.success with
              | true =>
                  refine ⟨fun _ => ?_, fun h => ?_, ?_⟩
                  · simp [fetchSummary, hs, containedSummary]
                  · simp [summaryFetchOkSuccess, hs] at h
                  · simp [fetchSummary, hs]
              | false =>
                  refine ⟨fun h => ?_, fun _ => ?_, ?_⟩
                  · simp [summaryFetchOkSuccess, hs] at h
                  · constructor <;> simp [fetchSummary, hs]
                  · simp [fetchSummary, hs]

theorem claim_C7_initial_load_witness :
    (fetchSummary (.response true 200
        (some { success := true, summary := some sampleSummary }))).returned
      = some sampleSummary
    ∧ (fetchSummary (.response false 500
        (some { success := true, summary := some sampleSummary }))).returned
      = none := by
  constructor
  · have h := (claim_C7_initial_load (SummaryFetchOutcome.response true 200
        (some { success := true, summary := some sampleSummary }))).1 rfl
    rw [h]
    rfl
  · exact ((claim_C7_initial_load (SummaryFetchOutcome.response false 500
        (some { success := true, summary := some sampleSummary }))).2.1 rfl).1

/-- A successful `/upload` response with a parseable JSON body. -/
def okJsonResp : HttpResponse :=
  { ok := true, status := 200, bodyText := "\x7b\"success\":true\x7d",
    bodyJson := some { success := true } }

/-- Claim C1 (corrected), counterexample: the claim says a non-timeout
failure (a 4xx/5xx response with a body) is never retried.  In the retry
loop the guarded `continue` for abort/timeout errors is followed by an
unconditional `if (attempt < retries) continue;`, so a 500 response with
a body is retried exactly like a timeout: with `retries = 2` (the
`/upload` call site) a first-attempt 500 followed by a success yields a
successful result after 2 attempts instead of failing after 1. -/
theorem claim_C1_counterexample :
    fetchWithTimeoutAndRetries uploadTimeoutMs uploadRetryCount
        [.response diskFullResp, .response okJsonResp]
      = { attempts := 2, result := .ok (.jobj { success := true }) }
    ∧ (fetchWithTimeoutAndRetries uploadTimeoutMs uploadRetryCount
        [.response diskFullResp, .response okJsonResp]).attempts ≠ 1 :=
  ⟨rfl, by decide⟩

theorem fwtrLoop_attempts_le (outcomes : List AttemptOutcome) :
    ∀ remaining attempt, (fwtrLoop outcomes attempt remaining).attempts ≤ attempt + remaining + 1 := by
  intro remaining
  induction remaining with
  | zero =>
      intro attempt
      unfold fwtrLoop
      split
      · show attempt + 1 ≤ attempt + 0 + 1
        omega
      · show attempt + 1 ≤ attempt + 0 + 1
        omega
  | succ r ih =>
      intro attempt
      unfold fwtrLoop
      split
      · show attempt + 1 ≤ attempt + (r + 1) + 1
        omega
      · rw [ite_self]
        have := ih (attempt + 1)
        omega

theorem fwtrLoop_attempts_ge (outcomes : List AttemptOutcome) :
    ∀ remaining attempt, attempt + 1 ≤ (fwtrLoop outcomes attempt remaining).attempts := by
  intro remaining
  induction remaining with
  | zero =>
      intro attempt
      unfold fwtrLoop
      split
      · show attempt + 1 ≤ attempt + 1
        omega
      · show attempt + 1 ≤ attempt + 1
        omega
  | succ r ih =>
      intro attempt
      unfold fwtrLoop
      split
      · show attempt + 1 ≤ attempt + 1
        omega
      · rw [ite_self]
        have := ih (attempt + 1)
        omega

/-- Claim C1 (corrected), amended: requests issued through
`fetchWithTimeoutAndRetries` are bounded by a 30-second per-attempt
timeout (30000 ms at both call sites, with retry counts 2 for `/upload`
and 1 for `/report`) and make at most `retries + 1` attempts; a request
that aborts (timeout) once and succeeds on the second attempt yields a
successful result after exactly 2 attempts; and a failed first attempt
of ANY kind — not only timeout/abort — is retried while attempts
remain. -/
theorem claim_C1_retry_semantics :
    (uploadTimeoutMs = 30000 ∧ reportTimeoutMs = 30000
      ∧ uploadRetryCount = 2 ∧ reportRetryCount = 1)
    ∧ (∀ (r : Nat) (rest : List AttemptOutcome),
        fetchWithTimeoutAndRetries 30000 (r + 1)
            (.abortTimeout :: .response okJsonResp :: rest)
          = { attempts := 2, result := .ok (.jobj { success := true }) })
    ∧ (∀ (t retries : Nat) (outcomes : List AttemptOutcome),
        (fetchWithTimeoutAndRetries t retries outcomes).attempts ≤ retries + 1)
    ∧ (∀ (r : Nat) (o : AttemptOutcome) (outcomes : List AttemptOutcome),
        (attemptRun o).isOk = false →
          2 ≤ (fetchWithTimeoutAndRetries 30000 (r + 1) (o :: outcomes)).attempts) := by
  refine ⟨⟨rfl, rfl, rfl, rfl⟩, ?_, ?_, ?_⟩
  · intro r rest
    cases r with
    | zero => rfl
    | succ r => rfl
  · intro t retries outcomes
    have := fwtrLoop_attempts_le outcomes retries 0
    simpa [fetchWithTimeoutAndRetries] using this
  · intro r o outcomes hfail
    show 2 ≤ (fwtrLoop (o :: outcomes) 0 (r + 1)).attempts
    unfold fwtrLoop
    show 2 ≤ (match attemptRun o with
      | Except.ok v => ({ attempts := 0 + 1, result := Except.ok v } : FetchResult)
      | Except.error e =>
        if timeoutLike e = true then fwtrLoop (o :: outcomes) (0 + 1) r
        else fwtrLoop (o :: outcomes) (0 + 1) r).attempts
    cases hA : attemptRun o with
    | ok v => rw [hA] at hfail; simp [Except.isOk, Except.toBool] at hfail
    | error e =>
        show 2 ≤ (if timeoutLike e = true then fwtrLoop (o :: outcomes) (0 + 1) r
                  else fwtrLoop (o :: outcomes) (0 + 1) r).attempts
        rw [ite_self]
        have h2 := fwtrLoop_attempts_ge (o :: outcomes) r 1
        simpa using h2

theorem claim_C1_retry_semantics_witness :
    2 ≤ (fetchWithTimeoutAndRetries 30000 2
        [.netError "boom", .response okJsonResp]).attempts :=
  claim_C1_retry_semantics.2.2.2 1 (.netError "boom") [.response okJsonResp] rfl

theorem fillLoop_eq_take (l : List (String × ChartValue)) :
    ∀ count, fillLoop count l
      = ((l.filterMap fun kv => (fallbackImg kv.2).map fun t => (kv.1, t)).take (4 - count)) := by
  induction l with
  | nil => intro count; simp [fillLoop]
  | cons kv rest ih =>
      intro count
      by_cases h : 4 ≤ count
      · have h0 : 4 - count = 0 := Nat.sub_eq_zero_of_le h
        simp [fillLoop, h, h0]
      · cases himg : fallbackImg kv.2 with
        | none => simp [fillLoop, h, himg, ih]
        | some t =>
            have hs : 4 - count = (4 - (count + 1)) + 1 := by omega
            rw [hs]
            simp [fillLoop, h, himg, ih]

theorem selectCharts_eq_claim (charts : List (String × ChartValue)) :
    selectCharts charts = selectChartsClaim charts := by
  unfold selectCharts selectChartsClaim
  cases h1 : heatPick charts <;> cases h2 : scatterPick charts <;>
    cases h3 : numericPick charts <;> cases h4 : catPick charts <;>
      simp [fillLoop_eq_take, Option.toList]

theorem selectChartsClaim_length_le (charts : List (String × ChartValue)) :
    (selectChartsClaim charts).length ≤ 4 := by
  unfold selectChartsClaim
  simp only [List.length_append, List.length_take]
  omega

/-- Claim C5 (confirmed): the chart selection of `displayCharts` equals
the selection described by the claim — correlation heatmap first, then
the first scatter entry encountered, then one numeric-distribution chart
(histogram preferred over boxplot within the chosen entry), then one
categorical chart (horizontal bar preferred over pie), with any
remaining slots filled deterministically, in the order received, by the
other returned charts that carry a usable image — and it never displays
more than 4 images. -/
theorem claim_C5_chart_selection (charts : List (String × ChartValue)) :
    selectCharts charts = selectChartsClaim charts
    ∧ (selectCharts charts).length ≤ 4 :=
  ⟨selectCharts_eq_claim charts,
   (selectCharts_eq_claim charts) ▸ selectChartsClaim_length_le charts⟩

end EdaClient
